import Mathlib

/-!
Shallow embedding of the goal-cache components of the sdm-pack-gcp
repository: the cache configuration resolver (getCacheConfig), the
object-key construction (getCachePath) and the Google Cloud Storage
archive store (store, retrieve, delete) with its retry-and-log wrapper
(gcs).  The object-storage client and the orchestration layer's
doWithRetry are external collaborators and are modelled at the boundary.
-/

namespace SdmPackGcp

/-- Partial cache configuration block as found in gi.configuration.sdm.cache:
each field may be absent (none); string fields may also be present but empty. -/
structure CacheBlock where
  bucket : Option String
  enabled : Option Bool
  path : Option String
deriving DecidableEq, Repr

/-- Fully resolved cache configuration (CacheConfig in the source). -/
structure CacheConfig where
  bucket : String
  enabled : Bool
  path : String
deriving DecidableEq, Repr

/-- Relevant read-only inputs of a GoalInvocation: configuration.name,
configuration.sdm.cache, context.workspaceId, and the goalEvent repository
metadata (providerId, owner, repo name, branch, sha). -/
structure GoalInvocation where
  name : String
  cache : Option CacheBlock
  workspaceId : String
  providerId : String
  owner : String
  repo : String
  branch : String
  sha : String
deriving DecidableEq, Repr

/-- JavaScript `x || d` for a possibly absent string field: both an absent
field and the empty string are falsy and select the default. -/
def orDefault : Option String → String → String
  | some s, d => if s = "" then d else s
  | none, d => d

/-- Character class of the regex `[-a-z0-9]` used when sanitizing the default
bucket name. -/
def bucketChar (c : Char) : Bool :=
  c == '-' || (decide ('a' ≤ c) && decide (c ≤ 'z')) || (decide ('0' ≤ c) && decide (c ≤ '9'))

/-- Replacement `.replace(okRegexDashes, "-")` where the regex matches two or
more consecutive hyphens: collapse every run of hyphens to a single hyphen
(runs of length one are unchanged, so collapsing every run is equivalent). -/
def collapseDashes : List Char → List Char
  | [] => []
  | [c] => [c]
  | c :: c2 :: cs =>
    if c == '-' && c2 == '-' then collapseDashes (c2 :: cs)
    else c :: collapseDashes (c2 :: cs)

/-- Composition `.toLowerCase()` then stripping every character outside the
class `[-a-z0-9]` then collapsing hyphen runs, exactly as applied to the
template string in getCacheConfig. -/
def sanitizeBucketName (s : String) : String :=
  String.mk (collapseDashes ((s.toList.map Char.toLower).filter bucketChar))

/-- Default bucket name: the template literal
`sdm-WORKSPACE_ID-SDM_NAME-goal-cache`, sanitized. -/
def defaultBucket (gi : GoalInvocation) : String :=
  sanitizeBucketName ("sdm-" ++ gi.workspaceId ++ "-" ++ gi.name ++ "-goal-cache")

/-- Embedding of getCacheConfig.  The source mutates the cache block in place
(the local cacheConfig aliases gi.configuration.sdm.cache whenever that block
is present, and a fresh object otherwise), so the embedding returns the
resolved config together with the post-call invocation. -/
def getCacheConfig (gi : GoalInvocation) : CacheConfig × GoalInvocation :=
  let block := gi.cache.getD ⟨none, none, none⟩
  let enabled := block.enabled.getD false
  let bucket := orDefault block.bucket (defaultBucket gi)
  let path := orDefault block.path "goal-cache"
  let cfg : CacheConfig := ⟨bucket, enabled, path⟩
  match gi.cache with
  | some _ => (cfg, { gi with cache := some ⟨some bucket, some enabled, some path⟩ })
  | none => (cfg, gi)

/-- Resolved configuration value returned by getCacheConfig. -/
def getCacheConfigVal (gi : GoalInvocation) : CacheConfig :=
  (getCacheConfig gi).1

/-- Fuel-indexed global replacement of a literal pattern in a character list,
scanning left to right; the fuel is the length of the scanned list. -/
def replaceAllFuel : Nat → List Char → List Char → List Char → List Char
  | 0, s, _, _ => s
  | _ + 1, [], _, _ => []
  | fuel + 1, c :: cs, pat, rep =>
    if !pat.isEmpty && pat.isPrefixOf (c :: cs) then
      rep ++ replaceAllFuel fuel ((c :: cs).drop pat.length) pat rep
    else
      c :: replaceAllFuel fuel cs pat rep

/-- JavaScript `s.replace(pat, rep)` with a global literal pattern: replace
every occurrence of pat in s by rep. -/
def jsReplace (s pat rep : String) : String :=
  String.mk (replaceAllFuel s.toList.length s.toList pat.toList rep.toList)

/-- Modelled from the spec: the getCachePath of lib/cache.ts at the revision
exercised by test/cache.test.ts is absent from the provided sources (the two
provided revisions of that file use the older key formats the spec mentions
as the earlier lineage).  This definition follows the spec's bit-exact key
format `path/workspaceId/providerId/owner/repo/branch/classifier/sha-cache.tar.gz`
with the placeholders providerId, owner, repo and branch expanded inside the
classifier, and is validated against the expected constant of the repository
test. -/
def getCachePath (gi : GoalInvocation) (classifier : String) : String :=
  let classifierPath :=
    jsReplace (jsReplace (jsReplace (jsReplace classifier
      "$\x7bproviderId\x7d" gi.providerId)
      "$\x7bowner\x7d" gi.owner)
      "$\x7brepo\x7d" gi.repo)
      "$\x7bbranch\x7d" gi.branch
  String.intercalate "/"
    [(getCacheConfigVal gi).path, gi.workspaceId, gi.providerId, gi.owner,
      gi.repo, gi.branch, classifierPath, gi.sha ++ "-cache.tar.gz"]

/-- Modelled from the spec: bound on the retries the orchestration layer's
doWithRetry performs after the first attempt (bounded attempt count). -/
def retryLimit : Nat := 5

/-- Modelled from the spec: the retry loop of doWithRetry.  The outcome of the
k-th attempt of the storage call is op k; with n retries remaining, a failed
attempt is retried, and the last failure becomes final. -/
def doWithRetryFrom (op : Nat → Except String Unit) : Nat → Nat → Except String Unit
  | k, 0 => op k
  | k, n + 1 =>
    match op k with
    | .ok u => .ok u
    | .error _ => doWithRetryFrom op (k + 1) n

/-- Modelled from the spec: doWithRetry from the orchestration layer, a
bounded-retry wrapper around the storage call. -/
def doWithRetry (op : Nat → Except String Unit) : Except String Unit :=
  doWithRetryFrom op 0 retryLimit

/-- Outcome of one archive-store operation: the result the caller sees, and
the lines written to the invocation's progress log, in order. -/
structure GcsResult where
  result : Except String Unit
  progressLog : List String
deriving Repr

/-- Present-participle form of the verb, `verb.replace(trailing-e, "ing")`,
used in the start log line. -/
def gerund (verb : String) : String :=
  if verb.toList.getLast? = some 'e' then String.mk (verb.toList.dropLast ++ "ing".toList)
  else verb

/-- Fully qualified object URI `gs://bucket/key` as interpolated in gcs. -/
def objectUri (gi : GoalInvocation) (classifier : String) : String :=
  "gs://" ++ (getCacheConfigVal gi).bucket ++ "/" ++ getCachePath gi classifier

/-- Embedding of the private gcs wrapper: resolve config and key, log the
start line, run the storage call under doWithRetry, then on success log the
completion line, and on final failure rewrite the error message, log it at
error severity, and swallow it unless the verb is "retrieve".  The storage
backend is external; op gives the outcome of its k-th attempt. -/
def gcs (gi : GoalInvocation) (classifier : String) (op : Nat → Except String Unit)
    (verb : String) : GcsResult :=
  let uri := objectUri gi classifier
  let startMsg := gerund verb ++ " cache archive " ++ uri
  match doWithRetry op with
  | .ok _ => ⟨.ok (), [startMsg, verb ++ "d cache archive " ++ uri]⟩
  | .error m =>
    let msg := "Failed to " ++ verb ++ " cache archive " ++ uri ++ ": " ++ m
    if verb = "retrieve" then ⟨.error msg, [startMsg, msg]⟩
    else ⟨.ok (), [startMsg, msg]⟩

/-- Archive-store store operation: upload of the local archive at archivePath
to the resolved key, through the gcs wrapper with verb "store". -/
def store (gi : GoalInvocation) (classifier : String) (archivePath : String)
    (op : Nat → Except String Unit) : GcsResult :=
  gcs gi classifier op "store"

/-- Archive-store delete operation, through the gcs wrapper with verb
"delete". -/
def delete (gi : GoalInvocation) (classifier : String)
    (op : Nat → Except String Unit) : GcsResult :=
  gcs gi classifier op "delete"

/-- Archive-store retrieve operation: download of the object at the resolved
key to targetArchivePath, through the gcs wrapper with verb "retrieve". -/
def retrieve (gi : GoalInvocation) (classifier : String) (targetArchivePath : String)
    (op : Nat → Except String Unit) : GcsResult :=
  gcs gi classifier op "retrieve"

/-- Modelled from the spec: the object-storage capability as a finite map of
(bucket, key) to stored bytes, listed most-recent first. -/
abbrev GcsObjects := List ((String × String) × String)

/-- Modelled from the spec: upload(localFile, bucket, key), overwriting any
object already at the key. -/
def upload (σ : GcsObjects) (bucket key content : String) : GcsObjects :=
  ((bucket, key), content) :: σ.filter (fun e => e.1 != (bucket, key))

/-- Modelled from the spec: download(bucket, key, localFile), yielding the
stored bytes when the object exists. -/
def download (σ : GcsObjects) (bucket key : String) : Option String :=
  (σ.find? (fun e => e.1 == (bucket, key))).map (fun e => e.2)

/-- Modelled from the spec: delete(bucket, key). -/
def deleteObject (σ : GcsObjects) (bucket key : String) : GcsObjects :=
  σ.filter (fun e => e.1 != (bucket, key))

/-- Modelled from the spec: exists(bucket, key). -/
def objectExists (σ : GcsObjects) (bucket key : String) : Bool :=
  (σ.find? (fun e => e.1 == (bucket, key))).isSome

/-- State effect of a successful store: upload the archive content to the
resolved bucket and key. -/
def storeRun (gi : GoalInvocation) (classifier content : String) (σ : GcsObjects) : GcsObjects :=
  upload σ (getCacheConfigVal gi).bucket (getCachePath gi classifier) content

/-- Content observed by a successful retrieve at the resolved bucket and key. -/
def retrieveRun (gi : GoalInvocation) (classifier : String) (σ : GcsObjects) : Option String :=
  download σ (getCacheConfigVal gi).bucket (getCachePath gi classifier)

/-- State effect of a successful delete at the resolved bucket and key. -/
def deleteRun (gi : GoalInvocation) (classifier : String) (σ : GcsObjects) : GcsObjects :=
  deleteObject σ (getCacheConfigVal gi).bucket (getCachePath gi classifier)

/-- Invocation of the repository test "should provide default config":
workspace TH3BY4D5, SDM name sweetheart-of-the-rodeo, no cache block. -/
def giDefault : GoalInvocation :=
  ⟨"sweetheart-of-the-rodeo", none, "TH3BY4D5", "providerx", "ownerx", "namex",
    "branchx", "shax"⟩

/-- Invocation of the repository test "should clean up bucket name":
SDM name with characters outside the bucket class and a hyphen run. -/
def giCleanup : GoalInvocation :=
  ⟨"@Sweetheart/of--the-Rodeo-", none, "TH3BY4D5", "providerx", "ownerx", "namex",
    "branchx", "shax"⟩

/-- Invocation of the repository tests "should use provided config" and
"should return a reasonable path": a fully supplied cache block and the
goal-event repository metadata of the path test. -/
def giByrds : GoalInvocation :=
  ⟨"@byrds/sweetheart-of-the-rodeo",
    some ⟨some "hickory-wind", some true, some "lazy/days"⟩,
    "TH3BY4D5", "100yearsfromnow", "YoureStillOnMyMind", "you-aint-goin-nowhere",
    "the-christian-life", "808eddb6016a45091e6d53f12ab8ca2d1cd7fb3e"⟩

/-- Invocation with a present but empty cache block, used to observe the
in-place mutation of the block. -/
def giEmptyBlock : GoalInvocation :=
  ⟨"app", some ⟨none, none, none⟩, "WS", "providerx", "ownerx", "namex",
    "branchx", "shax"⟩

/-- Invocation supplying bucket as the explicit empty string. -/
def giEmptyBucket : GoalInvocation :=
  ⟨"app", some ⟨some "", none, none⟩, "WS", "providerx", "ownerx", "namex",
    "branchx", "shax"⟩

/-- Invocation whose cache block is fully specified (all three fields
present) but with an empty bucket string. -/
def giFullEmptyBucket : GoalInvocation :=
  ⟨"app", some ⟨some "", some true, some "x"⟩, "WS", "providerx", "ownerx", "namex",
    "branchx", "shax"⟩

/-- Helper: resolving an already resolved string field again with the same
default yields the same value. -/
theorem orDefault_orDefault (o : Option String) (d : String) :
    orDefault (some (orDefault o d)) d = orDefault o d := by
  cases o with
  | none => simp [orDefault]
  | some s => by_cases hs : s = "" <;> simp [orDefault, hs]

/-- Helper: when every attempt fails with message m, the retry loop fails
with message m. -/
theorem doWithRetryFrom_persistent (op : Nat → Except String Unit) (m : String)
    (h : ∀ j, op j = .error m) : ∀ (n k : Nat), doWithRetryFrom op k n = .error m := by
  intro n
  induction n with
  | zero => intro k; simpa [doWithRetryFrom] using h k
  | succ n ih =>
    intro k
    simp only [doWithRetryFrom, h k]
    exact ih (k + 1)

/-- Helper: when every attempt fails with message m, doWithRetry fails with
message m. -/
theorem doWithRetry_persistent (op : Nat → Except String Unit) (m : String)
    (h : ∀ j, op j = .error m) : doWithRetry op = .error m :=
  doWithRetryFrom_persistent op m h retryLimit 0

/-- Helper: a first failed attempt followed by a successful one succeeds as
long as at least one retry remains. -/
theorem doWithRetryFrom_transient (op : Nat → Except String Unit) (k : Nat) (e : String)
    (h0 : op k = .error e) (h1 : op (k + 1) = .ok ()) :
    ∀ n, 1 ≤ n → doWithRetryFrom op k n = .ok () := by
  intro n hn
  cases n with
  | zero => omega
  | succ n =>
    simp only [doWithRetryFrom, h0]
    cases n with
    | zero => simpa [doWithRetryFrom] using h1
    | succ n => simp only [doWithRetryFrom, h1]

/-- Helper: a transient failure on the first attempt followed by a successful
second attempt makes doWithRetry succeed. -/
theorem doWithRetry_transient (op : Nat → Except String Unit) (e : String)
    (h0 : op 0 = .error e) (h1 : op 1 = .ok ()) : doWithRetry op = .ok () :=
  doWithRetryFrom_transient op 0 e h0 h1 retryLimit (by decide)

/-- C7: given workspace TH3BY4D5 and application name sweetheart-of-the-rodeo
with no cache block configured, getCacheConfig returns exactly
bucket sdm-th3by4d5-sweetheart-of-the-rodeo-goal-cache, enabled false and
path goal-cache: enabled defaults to false and path to goal-cache when
absent. -/
theorem c7_default_config :
    getCacheConfigVal giDefault =
      ⟨"sdm-th3by4d5-sweetheart-of-the-rodeo-goal-cache", false, "goal-cache"⟩ := by
  decide

/-- C3: for every workspace identifier and application name, when no bucket
is configured (whether the whole cache block or just its bucket field is
absent) the resolved bucket is the template sdm-WORKSPACE-NAME-goal-cache
lower-cased, stripped of every character that is not a lowercase letter,
digit or hyphen, with hyphen runs collapsed; in particular application name
@Sweetheart/of--the-Rodeo- with workspace TH3BY4D5 yields the bucket
sdm-th3by4d5-sweetheartof-the-rodeo-goal-cache. -/
theorem c3_default_bucket_derivation (n ws pid ow rp br sh : String)
    (e : Option Bool) (p : Option String) :
    (getCacheConfigVal ⟨n, none, ws, pid, ow, rp, br, sh⟩).bucket =
      String.mk (collapseDashes
        ((("sdm-" ++ ws ++ "-" ++ n ++ "-goal-cache").toList.map Char.toLower).filter
          bucketChar)) ∧
    (getCacheConfigVal ⟨n, some ⟨none, e, p⟩, ws, pid, ow, rp, br, sh⟩).bucket =
      String.mk (collapseDashes
        ((("sdm-" ++ ws ++ "-" ++ n ++ "-goal-cache").toList.map Char.toLower).filter
          bucketChar)) ∧
    (getCacheConfigVal giCleanup).bucket = "sdm-th3by4d5-sweetheartof-the-rodeo-goal-cache" := by
  refine ⟨rfl, rfl, by decide⟩

/-- C10: defaulting in getCacheConfig is decided by falsiness, not absence:
supplying bucket and path as empty strings and enabled as false resolves
exactly as if the fields were absent, so the empty-string fields are
replaced by their computed defaults. -/
theorem c10_falsy_defaulting (n ws pid ow rp br sh : String) :
    getCacheConfigVal ⟨n, some ⟨some "", some false, some ""⟩, ws, pid, ow, rp, br, sh⟩ =
      getCacheConfigVal ⟨n, none, ws, pid, ow, rp, br, sh⟩ ∧
    (getCacheConfigVal ⟨n, some ⟨some "", some false, some ""⟩, ws, pid, ow, rp, br, sh⟩).bucket =
      defaultBucket ⟨n, none, ws, pid, ow, rp, br, sh⟩ ∧
    (getCacheConfigVal ⟨n, some ⟨some "", some false, some ""⟩, ws, pid, ow, rp, br, sh⟩).path =
      "goal-cache" ∧
    (getCacheConfigVal ⟨n, some ⟨some "", some false, some ""⟩, ws, pid, ow, rp, br, sh⟩).enabled =
      false := by
  refine ⟨rfl, rfl, rfl, rfl⟩

/-- C4 counterexample: supplying bucket as the explicit empty string is not
returned unchanged; the resolver replaces it with the computed default, so
not every user-supplied field survives resolution. -/
theorem c4_empty_bucket_not_preserved :
    (getCacheConfigVal giEmptyBucket).bucket ≠ "" := by
  decide

/-- C4 amended: every user-supplied field whose value is truthy is returned
unchanged (non-empty bucket and path strings, and any supplied enabled
value, false included, since false coincides with the default), defaulting
is applied independently per missing field, and supplying
bucket hickory-wind, enabled true, path lazy/days returns exactly that
object. -/
theorem c4_supplied_values_preserved (gi : GoalInvocation) (b : CacheBlock)
    (hb : gi.cache = some b) :
    (∀ s, b.bucket = some s → s ≠ "" → (getCacheConfigVal gi).bucket = s) ∧
    (∀ e, b.enabled = some e → (getCacheConfigVal gi).enabled = e) ∧
    (∀ s, b.path = some s → s ≠ "" → (getCacheConfigVal gi).path = s) ∧
    (b.bucket = none → (getCacheConfigVal gi).bucket = defaultBucket gi) ∧
    (b.enabled = none → (getCacheConfigVal gi).enabled = false) ∧
    (b.path = none → (getCacheConfigVal gi).path = "goal-cache") ∧
    getCacheConfigVal giByrds = ⟨"hickory-wind", true, "lazy/days"⟩ := by
  refine ⟨?_, ?_, ?_, ?_, ?_, ?_, by decide⟩
  · intro s hs hne
    simp [getCacheConfigVal, getCacheConfig, hb, hs, orDefault, hne]
  · intro e he
    simp [getCacheConfigVal, getCacheConfig, hb, he]
  · intro s hs hne
    simp [getCacheConfigVal, getCacheConfig, hb, hs, orDefault, hne]
  · intro hnone
    simp [getCacheConfigVal, getCacheConfig, hb, hnone, orDefault]
  · intro hnone
    simp [getCacheConfigVal, getCacheConfig, hb, hnone]
  · intro hnone
    simp [getCacheConfigVal, getCacheConfig, hb, hnone, orDefault]

/-- C4 witness: the hickory-wind configuration of the repository test has its
supplied bucket preserved, via the amended theorem. -/
theorem c4_supplied_values_preserved_witness :
    (getCacheConfigVal giByrds).bucket = "hickory-wind" :=
  (c4_supplied_values_preserved giByrds
      ⟨some "hickory-wind", some true, some "lazy/days"⟩ rfl).1
    "hickory-wind" rfl (by decide)

/-- C5 counterexample: getCacheConfig does not leave the invocation context
unmodified; on an invocation whose cache block is present but empty, the
post-call invocation differs from the original. -/
theorem c5_mutates_present_block :
    (getCacheConfig giEmptyBlock).2 ≠ giEmptyBlock := by
  decide

/-- C5 amended: getCacheConfig is total and its result depends only on its
input, but it is not free of side effects on the invocation: when no cache
block is configured the invocation is left unmodified (the fresh defaults
are not written back), and when a cache block is present that block is
mutated in place into the fully resolved configuration, which is then
returned as a shared object. -/
theorem c5_resolution_frame (gi : GoalInvocation) :
    (gi.cache = none → (getCacheConfig gi).2 = gi) ∧
    (∀ b, gi.cache = some b →
      (getCacheConfig gi).2 =
        { gi with cache := some ⟨some (getCacheConfigVal gi).bucket,
            some (getCacheConfigVal gi).enabled, some (getCacheConfigVal gi).path⟩ }) := by
  constructor
  · intro h
    simp [getCacheConfig, h]
  · intro b hb
    simp [getCacheConfig, getCacheConfigVal, hb]

/-- C5 witness: on the invocation with a present empty cache block, the
post-call invocation carries the fully resolved block, via the amended
theorem. -/
theorem c5_resolution_frame_witness :
    (getCacheConfig giEmptyBlock).2 =
      { giEmptyBlock with cache := some ⟨some (getCacheConfigVal giEmptyBlock).bucket,
          some (getCacheConfigVal giEmptyBlock).enabled,
          some (getCacheConfigVal giEmptyBlock).path⟩ } :=
  (c5_resolution_frame giEmptyBlock).2 ⟨none, none, none⟩ rfl

/-- C8 counterexample: a cache block that is fully specified in the sense
that all of bucket, enabled and path are present, but whose bucket is the
empty string, is not returned unchanged by resolution. -/
theorem c8_full_config_changed :
    getCacheConfigVal giFullEmptyBucket ≠ ⟨"", true, "x"⟩ := by
  decide

/-- C8 amended: configuration resolution is total, and getCacheConfig applied
to its own output (the invocation as left by the previous call, whose block
holds the resolved fields) is the identity on both the returned config and
the invocation; a fully specified block is returned unchanged provided its
present string fields are non-empty, an empty string being re-defaulted. -/
theorem c8_idempotent (gi : GoalInvocation) :
    getCacheConfig ((getCacheConfig gi).2) = getCacheConfig gi := by
  cases hgc : gi.cache with
  | none => simp [getCacheConfig, hgc]
  | some b =>
    simp [getCacheConfig, hgc, orDefault_orDefault, defaultBucket, Option.getD]

/-- Helper: present participle of store. -/
theorem gerund_store : gerund "store" = "storing" := by decide

/-- Helper: present participle of delete. -/
theorem gerund_delete : gerund "delete" = "deleting" := by decide

/-- C1: for every invocation and classifier, when the storage call fails
persistently (its retried outcome is an error with message m), retrieve
raises the error with message rewritten to
"Failed to retrieve cache archive URI: m", while store and delete return
normally with the rewritten error only logged; when the retried call
succeeds, all three operations return normally. -/
theorem c1_failure_propagation (gi : GoalInvocation) (classifier a t m : String)
    (op : Nat → Except String Unit) :
    (doWithRetry op = .error m →
      (retrieve gi classifier t op).result =
        .error ("Failed to retrieve cache archive " ++ objectUri gi classifier ++ ": " ++ m) ∧
      (store gi classifier a op).result = .ok () ∧
      (delete gi classifier op).result = .ok () ∧
      (store gi classifier a op).progressLog =
        ["storing cache archive " ++ objectUri gi classifier,
          "Failed to store cache archive " ++ objectUri gi classifier ++ ": " ++ m] ∧
      (delete gi classifier op).progressLog =
        ["deleting cache archive " ++ objectUri gi classifier,
          "Failed to delete cache archive " ++ objectUri gi classifier ++ ": " ++ m]) ∧
    (doWithRetry op = .ok () →
      (retrieve gi classifier t op).result = .ok () ∧
      (store gi classifier a op).result = .ok () ∧
      (delete gi classifier op).result = .ok ()) := by
  constructor
  · intro h
    refine ⟨?_, ?_, ?_, ?_, ?_⟩ <;>
      simp [retrieve, store, delete, gcs, h, gerund_store, gerund_delete]
  · intro h
    refine ⟨?_, ?_, ?_⟩ <;> simp [retrieve, store, delete, gcs, h]

/-- C1 witness: with a storage backend whose every attempt fails with
message boom, retrieve raises the rewritten error and store returns
normally, on a concrete invocation. -/
theorem c1_failure_propagation_witness :
    (retrieve giByrds "classifierx" "t" (fun _ => .error "boom")).result =
      .error ("Failed to retrieve cache archive " ++ objectUri giByrds "classifierx" ++
        ": " ++ "boom") ∧
    (store giByrds "classifierx" "a" (fun _ => .error "boom")).result = .ok () :=
  ⟨((c1_failure_propagation giByrds "classifierx" "a" "t" "boom"
      (fun _ => .error "boom")).1 rfl).1,
    ((c1_failure_propagation giByrds "classifierx" "a" "t" "boom"
      (fun _ => .error "boom")).1 rfl).2.1⟩

/-- C6: every operation runs the storage call inside the bounded-retry
wrapper doWithRetry: a transient failure of the first attempt followed by a
successful second attempt makes store, retrieve and delete all succeed,
while a persistent failure is treated as final by the bounded loop and then
handed to the per-operation swallow (store) or rethrow (retrieve) policy. -/
theorem c6_bounded_retry (gi : GoalInvocation) (classifier a t e m : String)
    (op opf : Nat → Except String Unit) :
    (op 0 = .error e → op 1 = .ok () →
      doWithRetry op = .ok () ∧
      (store gi classifier a op).result = .ok () ∧
      (retrieve gi classifier t op).result = .ok () ∧
      (delete gi classifier op).result = .ok ()) ∧
    ((∀ k, opf k = .error m) →
      doWithRetry opf = .error m ∧
      (store gi classifier a opf).result = .ok () ∧
      (retrieve gi classifier t opf).result =
        .error ("Failed to retrieve cache archive " ++ objectUri gi classifier ++
          ": " ++ m)) := by
  constructor
  · intro h0 h1
    have hdw := doWithRetry_transient op e h0 h1
    exact ⟨hdw, by simp [store, gcs, hdw], by simp [retrieve, gcs, hdw],
      by simp [delete, gcs, hdw]⟩
  · intro h
    have hdw := doWithRetry_persistent opf m h
    exact ⟨hdw, by simp [store, gcs, hdw], by simp [retrieve, gcs, hdw]⟩

/-- C6 witness: an attempt sequence failing once then succeeding yields a
successful store, and a persistently failing one yields a final error from
doWithRetry, on a concrete invocation. -/
theorem c6_bounded_retry_witness :
    (store giByrds "classifierx" "a"
      (fun k => if k = 0 then .error "x" else .ok ())).result = .ok () ∧
    doWithRetry (fun _ => .error "boom") = .error "boom" :=
  ⟨((c6_bounded_retry giByrds "classifierx" "a" "t" "x" "boom"
        (fun k => if k = 0 then .error "x" else .ok ()) (fun _ => .error "boom")).1
      rfl rfl).2.1,
    ((c6_bounded_retry giByrds "classifierx" "a" "t" "x" "boom"
        (fun k => if k = 0 then .error "x" else .ok ()) (fun _ => .error "boom")).2
      (fun _ => rfl)).1⟩

set_option maxRecDepth 8192 in
/-- C2: for every configuration, classifier and invocation metadata, the
object key is
path/workspaceId/providerId/owner/repo/branch/classifier/sha-cache.tar.gz
with the four placeholders occurring in the classifier replaced by the
invocation metadata; in particular classifier i-am-a-pilgrim with path
lazy/days, workspace TH3BY4D5, providerId 100yearsfromnow, owner
YoureStillOnMyMind, repo you-aint-goin-nowhere, branch the-christian-life
and the given sha yields the expected constant of the repository test. -/
theorem c2_cache_path_format :
    (∀ (gi : GoalInvocation) (classifier : String),
      getCachePath gi classifier =
        (getCacheConfigVal gi).path ++ "/" ++ gi.workspaceId ++ "/" ++ gi.providerId ++ "/" ++
          gi.owner ++ "/" ++ gi.repo ++ "/" ++ gi.branch ++ "/" ++
          jsReplace (jsReplace (jsReplace (jsReplace classifier
            "$\x7bproviderId\x7d" gi.providerId)
            "$\x7bowner\x7d" gi.owner)
            "$\x7brepo\x7d" gi.repo)
            "$\x7bbranch\x7d" gi.branch ++ "/" ++
          gi.sha ++ "-cache.tar.gz") ∧
    getCachePath giByrds "i-am-a-pilgrim" =
      "lazy/days/TH3BY4D5/100yearsfromnow/YoureStillOnMyMind/you-aint-goin-nowhere/the-christian-life/i-am-a-pilgrim/808eddb6016a45091e6d53f12ab8ca2d1cd7fb3e-cache.tar.gz" := by
  refine ⟨fun gi classifier => ?_, by decide⟩
  simp [getCachePath, String.intercalate, String.intercalate.go, String.append_assoc]

/-- Helper: after deleting a key, the object at that key no longer exists. -/
theorem objectExists_deleteObject (σ : GcsObjects) (b k : String) :
    objectExists (deleteObject σ b k) b k = false := by
  simp only [objectExists, deleteObject]
  have hnone : List.find? (fun e => e.1 == (b, k)) (List.filter (fun e => e.1 != (b, k)) σ) =
      none := by
    rw [List.find?_eq_none]
    intro x hx
    have h2 := (List.mem_filter.mp hx).2
    simpa using h2
  rw [hnone]
  rfl

/-- C9: round trip over the object-storage state: after a successful store
of a file's content, a retrieve with the same invocation and classifier
observes byte-identical content, and a subsequent delete makes the object
at the resolved key non-existent. -/
theorem c9_round_trip (gi : GoalInvocation) (classifier content : String) (σ : GcsObjects) :
    retrieveRun gi classifier (storeRun gi classifier content σ) = some content ∧
    objectExists (deleteRun gi classifier (storeRun gi classifier content σ))
      (getCacheConfigVal gi).bucket (getCachePath gi classifier) = false := by
  constructor
  · simp [retrieveRun, storeRun, download, upload, List.find?_cons]
  · simp only [deleteRun]
    exact objectExists_deleteObject _ _ _

end SdmPackGcp
